import Mathlib

/-!
Verification of the FIDO BLE service module
(src/ble-firmware/components/ble/ble_services/ble_fido/ble_fido.h).

The header supplies the constants, the event taxonomy and the per-link
context structure directly; the bodies of the three declared operations
(ble_fido_init, ble_fido_on_ble_evt, ble_fido_data_send) are not part of
the repository sources, so they are modelled from the design document
(spec.md sections 4.2 to 4.4), as its doc comments record.
-/

set_option autoImplicit false

/-- From ble_fido.h line 106: fixed opcode overhead of a notification. -/
def OPCODE_LENGTH : Nat := 1

/-- From ble_fido.h line 107: fixed attribute-handle overhead of a notification. -/
def HANDLE_LENGTH : Nat := 2

/-- From ble_fido.h lines 110-115: maximum data length that can be sent,
a compile-time constant computed from the configured maximum MTU
(NRF_SDH_BLE_GATT_MAX_MTU_SIZE), here taken as the parameter. -/
def BLE_FIDO_MAX_DATA_LEN (maxMtuSize : Nat) : Nat :=
  maxMtuSize - OPCODE_LENGTH - HANDLE_LENGTH

/-- From ble_fido.h lines 119-125: the service event taxonomy delivered to
the application callback. -/
inductive ble_fido_evt_type_t where
  | BLE_FIDO_EVT_RX_DATA
  | BLE_FIDO_EVT_TX_RDY
  | BLE_FIDO_EVT_COMM_STARTED
  | BLE_FIDO_EVT_COMM_STOPPED
deriving DecidableEq, Repr

/-- From ble_fido.h lines 147-150: per-connection client context. -/
structure ble_fido_client_context_t where
  is_notification_enabled : Bool
deriving DecidableEq, Repr

/-- From ble_fido.h lines 157-167: the event record passed to the
application callback (type tag, connection handle, and the RX payload,
empty for the non-RX variants). -/
structure ble_fido_evt_t where
  type : ble_fido_evt_type_t
  conn_handle : Nat
  rx_data : List Nat
deriving DecidableEq, Repr

/-- The link context store: a finite map from connection handle to client
context (ble_fido.h line 199 holds it as p_link_ctx_storage; the storage
module itself is outside the sources, spec.md section 4.1 gives its
contract as lookup over currently active slots). -/
abbrev ContextStore : Type := List (Nat × ble_fido_client_context_t)

/-- Store lookup: resolve a connection handle to its context, or none when
the handle has no active slot (spec.md section 4.1). -/
def ctx_lookup (store : ContextStore) (conn : Nat) :
    Option ble_fido_client_context_t :=
  match store with
  | [] => none
  | (c, x) :: rest => if c = conn then some x else ctx_lookup rest conn

/-- Store update: bind a connection handle to a context, overwriting any
existing binding for that handle (spec.md sections 3 and 4.1: one slot per
live connection, no aliasing). -/
def ctx_insert (store : ContextStore) (conn : Nat)
    (ctx : ble_fido_client_context_t) : ContextStore :=
  match store with
  | [] => [(conn, ctx)]
  | (c, x) :: rest =>
      if c = conn then (conn, ctx) :: rest
      else (c, x) :: ctx_insert rest conn ctx

/-- Store release: drop every binding of a connection handle, freeing its
slot (spec.md section 4.2, disconnect handling). -/
def ctx_remove (store : ContextStore) (conn : Nat) : ContextStore :=
  match store with
  | [] => []
  | (c, x) :: rest =>
      if c = conn then ctx_remove rest conn
      else (c, x) :: ctx_remove rest conn

/-- The transport (link-layer) events fed to the dispatcher, tagged by
connection handle (spec.md section 6 inbound feed). -/
inductive TransportEvt where
  | connect (conn : Nat)
  | disconnect (conn : Nat)
  | peer_write (conn : Nat) (bytes : List Nat)
  | sub_change (conn : Nat) (enabled : Bool)
  | tx_complete (conn : Nat)
  | unrelated
deriving DecidableEq, Repr

/-- Modelled from the spec: the body of ble_fido_on_ble_evt (declared at
ble_fido.h line 227) is not in the sources; spec.md section 4.2 gives the
event dispatcher. It consumes one transport event, updates the link
context store and returns the list of service events handed to the
application callback, in order. Connect zero-initializes the slot,
disconnect releases it, subscription changes flip the flag (a repeat of
the current state is a no-op, per the idempotence requirement of spec.md
section 8), a peer write for a known connection emits RX_DATA, a
tx-complete for a subscribed connection emits TX_RDY, and unknown
connections or unrelated events are ignored. -/
def ble_fido_on_ble_evt (store : ContextStore) (evt : TransportEvt) :
    ContextStore × List ble_fido_evt_t :=
  match evt with
  | .connect conn => (ctx_insert store conn ⟨false⟩, [])
  | .disconnect conn => (ctx_remove store conn, [])
  | .sub_change conn enabled =>
      match ctx_lookup store conn with
      | none => (store, [])
      | some ctx =>
          if ctx.is_notification_enabled = enabled then (store, [])
          else if enabled then
            (ctx_insert store conn ⟨true⟩,
             [⟨.BLE_FIDO_EVT_COMM_STARTED, conn, []⟩])
          else
            (ctx_insert store conn ⟨false⟩,
             [⟨.BLE_FIDO_EVT_COMM_STOPPED, conn, []⟩])
  | .peer_write conn bytes =>
      match ctx_lookup store conn with
      | none => (store, [])
      | some _ => (store, [⟨.BLE_FIDO_EVT_RX_DATA, conn, bytes⟩])
  | .tx_complete conn =>
      match ctx_lookup store conn with
      | none => (store, [])
      | some ctx =>
          if ctx.is_notification_enabled then
            (store, [⟨.BLE_FIDO_EVT_TX_RDY, conn, []⟩])
          else (store, [])
  | .unrelated => (store, [])

/-- The send-pipeline error taxonomy (spec.md sections 4.3 and 7). -/
inductive SendError where
  | TooLong
  | InvalidConnection
  | NotSubscribed
  | Busy
deriving DecidableEq, Repr

/-- Everything a send call produces: its result (bytes sent on success),
the store after the call, the transport-notify invocations it made
(connection handle and length), and the application events it delivered
synchronously. -/
structure SendOutcome where
  result : Except SendError Nat
  finalStore : ContextStore
  transportCalls : List (Nat × Nat)
  appEvents : List ble_fido_evt_t
deriving Repr

/-- Modelled from the spec: the body of ble_fido_data_send (declared at
ble_fido.h lines 242-245) is not in the sources; spec.md section 4.3 gives
the send pipeline. Validation runs in a fixed order: data length against
BLE_FIDO_MAX_DATA_LEN of the configured MTU, then resolution of the
connection handle in the store, then the subscription flag, then transport
queue capacity (transportBusy is the transport queue-full condition the
link layer would report). The first failing check returns its error; on
success the full length is reported sent. The store is never mutated and
no application callback is invoked. -/
def ble_fido_data_send (maxMtuSize : Nat) (store : ContextStore)
    (data : List Nat) (conn : Nat) (transportBusy : Bool) : SendOutcome :=
  if BLE_FIDO_MAX_DATA_LEN maxMtuSize < data.length then
    ⟨.error .TooLong, store, [], []⟩
  else
    match ctx_lookup store conn with
    | none => ⟨.error .InvalidConnection, store, [], []⟩
    | some ctx =>
        if ctx.is_notification_enabled then
          if transportBusy then
            ⟨.error .Busy, store, [(conn, data.length)], []⟩
          else
            ⟨.ok data.length, store, [(conn, data.length)], []⟩
        else ⟨.error .NotSubscribed, store, [], []⟩

/-- The initialization error taxonomy (spec.md sections 4.4 and 7; the
header documents NRF_ERROR_NULL at ble_fido.h line 212). -/
inductive InitError where
  | NullHandler
deriving DecidableEq, Repr

/-- A constructed service instance: it retains exactly the registered
application callback reference (modelled as an identifier), per the
data_handler field of ble_fido_s at ble_fido.h line 200. -/
structure ServiceInstance where
  data_handler : Nat
deriving DecidableEq, Repr

/-- Modelled from the spec: the body of ble_fido_init (declared at
ble_fido.h line 214) is not in the sources; spec.md section 4.4 gives its
contract. A missing callback fails with NullHandler; otherwise the
instance is produced with the callback registered. -/
def ble_fido_init (callback : Option Nat) : Except InitError ServiceInstance :=
  match callback with
  | none => .error .NullHandler
  | some cb => .ok ⟨cb⟩

/-! ### Store lemmas -/

theorem ctx_lookup_insert_self (store : ContextStore) (conn : Nat)
    (ctx : ble_fido_client_context_t) :
    ctx_lookup (ctx_insert store conn ctx) conn = some ctx := by
  induction store with
  | nil => simp [ctx_insert, ctx_lookup]
  | cons head rest ih =>
      obtain ⟨c, x⟩ := head
      by_cases h : c = conn <;> simp [ctx_insert, ctx_lookup, h, ih]

theorem ctx_lookup_remove_self (store : ContextStore) (conn : Nat) :
    ctx_lookup (ctx_remove store conn) conn = none := by
  induction store with
  | nil => simp [ctx_remove, ctx_lookup]
  | cons head rest ih =>
      obtain ⟨c, x⟩ := head
      by_cases h : c = conn <;> simp [ctx_remove, ctx_lookup, h, ih]

/-! ### Send-result characterizations (shared helpers) -/

theorem send_result_too_long_iff
    (mtu : Nat) (store : ContextStore) (data : List Nat) (conn : Nat)
    (busy : Bool) :
    (ble_fido_data_send mtu store data conn busy).result
        = Except.error SendError.TooLong
      ↔ BLE_FIDO_MAX_DATA_LEN mtu < data.length := by
  unfold ble_fido_data_send
  by_cases hlen : BLE_FIDO_MAX_DATA_LEN mtu < data.length
  · simp [hlen]
  · cases hctx : ctx_lookup store conn with
    | none => simp [hlen, hctx]
    | some ctx =>
        cases h : ctx.is_notification_enabled <;> cases busy <;>
          simp [hlen, hctx, h]

theorem send_result_invalid_connection_iff
    (mtu : Nat) (store : ContextStore) (data : List Nat) (conn : Nat)
    (busy : Bool) :
    (ble_fido_data_send mtu store data conn busy).result
        = Except.error SendError.InvalidConnection
      ↔ data.length ≤ BLE_FIDO_MAX_DATA_LEN mtu
        ∧ ctx_lookup store conn = none := by
  unfold ble_fido_data_send
  by_cases hlen : BLE_FIDO_MAX_DATA_LEN mtu < data.length
  · simp [hlen, Nat.not_le.mpr hlen]
  · cases hctx : ctx_lookup store conn with
    | none => simp [hlen, hctx, Nat.not_lt.mp hlen]
    | some ctx =>
        cases h : ctx.is_notification_enabled <;> cases busy <;>
          simp [hlen, hctx, h]

theorem send_result_not_subscribed_iff
    (mtu : Nat) (store : ContextStore) (data : List Nat) (conn : Nat)
    (busy : Bool) :
    (ble_fido_data_send mtu store data conn busy).result
        = Except.error SendError.NotSubscribed
      ↔ data.length ≤ BLE_FIDO_MAX_DATA_LEN mtu
        ∧ ctx_lookup store conn = some ⟨false⟩ := by
  unfold ble_fido_data_send
  by_cases hlen : BLE_FIDO_MAX_DATA_LEN mtu < data.length
  · simp [hlen, Nat.not_le.mpr hlen]
  · cases hctx : ctx_lookup store conn with
    | none => simp [hlen, hctx]
    | some ctx =>
        obtain ⟨flag⟩ := ctx
        cases flag <;> cases busy <;>
          simp [hlen, hctx, Nat.not_lt.mp hlen]

theorem send_result_busy_iff
    (mtu : Nat) (store : ContextStore) (data : List Nat) (conn : Nat)
    (busy : Bool) :
    (ble_fido_data_send mtu store data conn busy).result
        = Except.error SendError.Busy
      ↔ data.length ≤ BLE_FIDO_MAX_DATA_LEN mtu
        ∧ ctx_lookup store conn = some ⟨true⟩ ∧ busy = true := by
  unfold ble_fido_data_send
  by_cases hlen : BLE_FIDO_MAX_DATA_LEN mtu < data.length
  · simp [hlen, Nat.not_le.mpr hlen]
  · cases hctx : ctx_lookup store conn with
    | none => simp [hlen, hctx]
    | some ctx =>
        obtain ⟨flag⟩ := ctx
        cases flag <;> cases busy <;>
          simp [hlen, hctx, Nat.not_lt.mp hlen]

/-! ### Claims -/

/-- C1: the send operation validates its preconditions in a fixed order
(length limit, then connection resolution, then subscription, then
transport capacity) and returns the error of the first failing check:
each error is returned exactly when its own check fails and every earlier
check passes. -/
theorem ble_fido_data_send_error_priority
    (mtu : Nat) (store : ContextStore) (data : List Nat) (conn : Nat)
    (busy : Bool) :
    ((ble_fido_data_send mtu store data conn busy).result
        = Except.error SendError.TooLong
      ↔ BLE_FIDO_MAX_DATA_LEN mtu < data.length) ∧
    ((ble_fido_data_send mtu store data conn busy).result
        = Except.error SendError.InvalidConnection
      ↔ data.length ≤ BLE_FIDO_MAX_DATA_LEN mtu
        ∧ ctx_lookup store conn = none) ∧
    ((ble_fido_data_send mtu store data conn busy).result
        = Except.error SendError.NotSubscribed
      ↔ data.length ≤ BLE_FIDO_MAX_DATA_LEN mtu
        ∧ ctx_lookup store conn = some ⟨false⟩) ∧
    ((ble_fido_data_send mtu store data conn busy).result
        = Except.error SendError.Busy
      ↔ data.length ≤ BLE_FIDO_MAX_DATA_LEN mtu
        ∧ ctx_lookup store conn = some ⟨true⟩ ∧ busy = true) :=
  ⟨send_result_too_long_iff mtu store data conn busy,
   send_result_invalid_connection_iff mtu store data conn busy,
   send_result_not_subscribed_iff mtu store data conn busy,
   send_result_busy_iff mtu store data conn busy⟩

/-- C2: sending data strictly longer than the transfer unit minus 3 bytes
returns TooLong for every store, connection and transport state, with no
transport call attempted, no store change and no callback. -/
theorem ble_fido_data_send_too_long
    (mtu : Nat) (store : ContextStore) (data : List Nat) (conn : Nat)
    (busy : Bool) (h : BLE_FIDO_MAX_DATA_LEN mtu < data.length) :
    ble_fido_data_send mtu store data conn busy
      = ⟨.error .TooLong, store, [], []⟩ := by
  unfold ble_fido_data_send
  simp [h]

/-- Witness for C2 at a concrete input: configured MTU 23 gives a 20-byte
limit, and a 21-byte payload to a subscribed connection returns TooLong
untouched. -/
theorem ble_fido_data_send_too_long_witness :
    BLE_FIDO_MAX_DATA_LEN 23 < (List.replicate 21 0).length ∧
    ble_fido_data_send 23 [(5, ⟨true⟩)] (List.replicate 21 0) 5 false
      = ⟨.error .TooLong, [(5, ⟨true⟩)], [], []⟩ :=
  ⟨by decide,
   ble_fido_data_send_too_long 23 [(5, ⟨true⟩)] (List.replicate 21 0) 5
     false (by decide)⟩

/-- Counterexample to C3 as stated: connection 5 has a context that was
never subscribed, yet send does not return NotSubscribed, because a
21-byte payload fails the earlier length check (MTU 23) and returns
TooLong instead. -/
theorem ble_fido_data_send_unsubscribed_cex :
    ctx_lookup [(5, ⟨false⟩)] 5 = some ⟨false⟩ ∧
    (ble_fido_data_send 23 [(5, ⟨false⟩)] (List.replicate 21 0) 5
        false).result ≠ Except.error SendError.NotSubscribed := by
  refine ⟨rfl, ?_⟩
  intro h
  simp [ble_fido_data_send, BLE_FIDO_MAX_DATA_LEN, OPCODE_LENGTH,
    HANDLE_LENGTH, ctx_lookup] at h

/-- C3 (amended): for every connection whose context exists with
is_notification_enabled = false, send with data within the length limit
returns NotSubscribed; the transport notification primitive is never
invoked, the store is unchanged and no callback runs. -/
theorem ble_fido_data_send_not_subscribed
    (mtu : Nat) (store : ContextStore) (data : List Nat) (conn : Nat)
    (busy : Bool)
    (hctx : ctx_lookup store conn = some ⟨false⟩)
    (hlen : data.length ≤ BLE_FIDO_MAX_DATA_LEN mtu) :
    ble_fido_data_send mtu store data conn busy
      = ⟨.error .NotSubscribed, store, [], []⟩ := by
  unfold ble_fido_data_send
  simp [hctx, Nat.not_lt.mpr hlen]

/-- Witness for the amended C3 at a concrete input: a 2-byte payload to a
known but unsubscribed connection returns NotSubscribed with no transport
call. -/
theorem ble_fido_data_send_not_subscribed_witness :
    ctx_lookup [(4, ⟨false⟩)] 4 = some ⟨false⟩ ∧
    ([1, 2] : List Nat).length ≤ BLE_FIDO_MAX_DATA_LEN 23 ∧
    ble_fido_data_send 23 [(4, ⟨false⟩)] [1, 2] 4 true
      = ⟨.error .NotSubscribed, [(4, ⟨false⟩)], [], []⟩ :=
  ⟨by decide, by decide,
   ble_fido_data_send_not_subscribed 23 [(4, ⟨false⟩)] [1, 2] 4 true
     (by decide) (by decide)⟩

/-- C4: initialization fails with NullHandler exactly when no callback is
supplied; with a callback, it succeeds and the produced instance holds
that callback. -/
theorem ble_fido_init_null_handler :
    ble_fido_init none = Except.error InitError.NullHandler ∧
    ∀ cb : Nat, ble_fido_init (some cb) = Except.ok ⟨cb⟩ :=
  ⟨rfl, fun _ => rfl⟩

/-- C5: an enable subscription-change for a connection currently
unsubscribed sets the flag and emits exactly one COMM_STARTED event; a
second consecutive enable for the same connection is a no-op and emits
nothing. -/
theorem sub_change_enable_once
    (store : ContextStore) (conn : Nat)
    (h : ctx_lookup store conn = some ⟨false⟩) :
    ctx_lookup (ble_fido_on_ble_evt store (.sub_change conn true)).1 conn
      = some ⟨true⟩ ∧
    (ble_fido_on_ble_evt store (.sub_change conn true)).2
      = [⟨.BLE_FIDO_EVT_COMM_STARTED, conn, []⟩] ∧
    ble_fido_on_ble_evt (ble_fido_on_ble_evt store (.sub_change conn true)).1
        (.sub_change conn true)
      = ((ble_fido_on_ble_evt store (.sub_change conn true)).1, []) := by
  simp [ble_fido_on_ble_evt, h, ctx_lookup_insert_self]

/-- Witness for C5 at a concrete input: connection 3, starting
unsubscribed. -/
theorem sub_change_enable_once_witness :
    ctx_lookup [(3, ⟨false⟩)] 3 = some ⟨false⟩ ∧
    (ctx_lookup
        (ble_fido_on_ble_evt [(3, ⟨false⟩)] (.sub_change 3 true)).1 3
      = some ⟨true⟩ ∧
    (ble_fido_on_ble_evt [(3, ⟨false⟩)] (.sub_change 3 true)).2
      = [⟨.BLE_FIDO_EVT_COMM_STARTED, 3, []⟩] ∧
    ble_fido_on_ble_evt
        (ble_fido_on_ble_evt [(3, ⟨false⟩)] (.sub_change 3 true)).1
        (.sub_change 3 true)
      = ((ble_fido_on_ble_evt [(3, ⟨false⟩)] (.sub_change 3 true)).1, [])) :=
  ⟨by decide, sub_change_enable_once [(3, ⟨false⟩)] 3 (by decide)⟩

/-- C6: a disconnect followed by a new connection reusing the same
connection handle yields a context with the subscription flag freshly
zero-initialized to false, whatever the previous session's state was. -/
theorem reconnect_resets_subscription (store : ContextStore) (conn : Nat) :
    ctx_lookup
        (ble_fido_on_ble_evt
          (ble_fido_on_ble_evt store (.disconnect conn)).1
          (.connect conn)).1 conn
      = some ⟨false⟩ := by
  simp [ble_fido_on_ble_evt, ctx_lookup_insert_self]

/-- C7: a peer write for a connection handle unknown to the context store
is a defensive no-op: the dispatcher returns normally with the store
unchanged and emits no event at all, in particular no RX_DATA. -/
theorem unknown_connection_write_noop
    (store : ContextStore) (conn : Nat) (bytes : List Nat)
    (h : ctx_lookup store conn = none) :
    ble_fido_on_ble_evt store (.peer_write conn bytes) = (store, []) := by
  simp [ble_fido_on_ble_evt, h]

/-- Witness for C7 at the spec scenario: a 20-byte write on connection 7,
which was never connected (empty store). -/
theorem unknown_connection_write_noop_witness :
    ctx_lookup [] 7 = none ∧
    ble_fido_on_ble_evt [] (.peer_write 7 (List.replicate 20 0)) = ([], []) :=
  ⟨by decide,
   unknown_connection_write_noop [] 7 (List.replicate 20 0) (by decide)⟩

/-- C8: a TX_RDY event is emitted on a transport tx-complete
acknowledgment if and only if the acknowledged connection is currently
subscribed; it is never emitted for an unknown or unsubscribed
connection. -/
theorem tx_ready_iff_subscribed (store : ContextStore) (conn : Nat) :
    ((⟨.BLE_FIDO_EVT_TX_RDY, conn, []⟩ : ble_fido_evt_t)
        ∈ (ble_fido_on_ble_evt store (.tx_complete conn)).2)
      ↔ ctx_lookup store conn = some ⟨true⟩ := by
  unfold ble_fido_on_ble_evt
  cases hctx : ctx_lookup store conn with
  | none => simp [hctx]
  | some ctx =>
      obtain ⟨flag⟩ := ctx
      cases flag <;> simp [hctx]

/-- C9: send has no side effect beyond the transport call: it never
delivers an application event synchronously and never mutates the context
store, so every connection's context (and subscription flag) reads the
same before and after any send. -/
theorem ble_fido_data_send_frame
    (mtu : Nat) (store : ContextStore) (data : List Nat) (conn : Nat)
    (busy : Bool) (c : Nat) :
    (ble_fido_data_send mtu store data conn busy).appEvents = [] ∧
    (ble_fido_data_send mtu store data conn busy).finalStore = store ∧
    ctx_lookup (ble_fido_data_send mtu store data conn busy).finalStore c
      = ctx_lookup store c := by
  unfold ble_fido_data_send
  by_cases hlen : BLE_FIDO_MAX_DATA_LEN mtu < data.length
  · simp [hlen]
  · cases hctx : ctx_lookup store conn with
    | none => simp [hlen, hctx]
    | some ctx =>
        cases h : ctx.is_notification_enabled <;> cases busy <;>
          simp [hlen, hctx, h]

/-- C10: the maximum send-data length is one compile-time constant,
the configured maximum MTU minus exactly 3 (OPCODE_LENGTH 1 plus
HANDLE_LENGTH 2), and the length check of send is identical for every
connection: whether TooLong is returned does not depend on the
connection, the store or the transport state. -/
theorem ble_fido_max_data_len_uniform
    (mtu : Nat) (store store2 : ContextStore) (conn conn2 : Nat)
    (data : List Nat) (busy busy2 : Bool) :
    BLE_FIDO_MAX_DATA_LEN mtu = mtu - (OPCODE_LENGTH + HANDLE_LENGTH) ∧
    BLE_FIDO_MAX_DATA_LEN mtu = mtu - 3 ∧
    ((ble_fido_data_send mtu store data conn busy).result
        = Except.error SendError.TooLong
      ↔ (ble_fido_data_send mtu store2 data conn2 busy2).result
        = Except.error SendError.TooLong) := by
  refine ⟨?_, ?_, ?_⟩
  · simp [BLE_FIDO_MAX_DATA_LEN, OPCODE_LENGTH, HANDLE_LENGTH]
    omega
  · simp [BLE_FIDO_MAX_DATA_LEN, OPCODE_LENGTH, HANDLE_LENGTH]
    omega
  · rw [send_result_too_long_iff, send_result_too_long_iff]
